import Mathlib

/-!
Shallow embedding of `src/index.js` from the `visonic-powerlink2` repository: a
stateful HTTP client for a Visonic PowerLink2 security panel.

The client's mutable instance fields (`failSafe`, `cookie`, `lastStatus`,
`getStatusIndex`) are gathered in `ClientState`; each callback of the source is
embedded as an explicit state-passing function that also reports which network
request (if any) is issued, so that "no network call" is visible in the result
type.  The fixed JavaScript regular expressions used by the source are embedded
as executable matching functions over `List Char`, with JavaScript's
leftmost-match and greedy/lazy backtracking semantics for those particular
patterns.  JavaScript object literals used as lookup tables are embedded
together with their prototype chain: bracket lookup of a key naming an
inherited `Object.prototype` member yields that member (a truthy non-string),
not `undefined`.
-/

namespace PowerLink2

/-- Occurrence of `pat` as a contiguous block of `s`. -/
def listIsInfix (pat : List Char) : List Char → Bool
  | [] => List.isPrefixOf pat ([] : List Char)
  | c :: t => List.isPrefixOf pat (c :: t) || listIsInfix pat t

/-- Substring test: embeds `body.match(/literal/)` for the source's fixed
literal regular expressions (no metacharacters after unescaping), e.g.
`/NOT::/`, `/\[RELOGIN\]/`, `/<customStatus>\[NOCNG\]<\/customStatus>/`. -/
def containsStr (pat s : String) : Bool :=
  listIsInfix pat.data s.data

/-- Index of the first occurrence of `pat` in `s` (`none` if absent). -/
def findSubIdx (pat : List Char) : List Char → Option Nat
  | [] => if List.isPrefixOf pat ([] : List Char) then some 0 else none
  | c :: t =>
    if List.isPrefixOf pat (c :: t) then some 0
    else (findSubIdx pat t).map (fun n => n + 1)

/-- Embeds a JavaScript regex of the shape `/open([^]+?)close/` (lazy,
`[^]` matches every character): the match starts at the leftmost occurrence of
`open` that is followed, at distance at least one, by `close`; the capture is
the shortest non-empty span between them. Used for `/<index>([^]+?)<\/index>/`
at line 72 of `src/index.js`. -/
def regexLazyBetween (openT closeT : List Char) : List Char → Option (List Char)
  | [] => none
  | c :: t =>
    if List.isPrefixOf openT (c :: t) then
      match findSubIdx closeT (((c :: t).drop openT.length).drop 1) with
      | some j => some (((c :: t).drop openT.length).take (j + 1))
      | none => regexLazyBetween openT closeT t
    else regexLazyBetween openT closeT t

/-- Capture of `/<index>([^]+?)<\/index>/` (line 72 of `src/index.js`). -/
def extractIndex (cs : List Char) : Option (List Char) :=
  regexLazyBetween "<index>".data "</index>".data cs

/-- Positions at which `pat` occurs in `cs`, in increasing order. -/
def occs (pat cs : List Char) : List Nat :=
  (List.range cs.length).filter (fun i => List.isPrefixOf pat (cs.drop i))

/-- Capture of the greedy regex
`/<system>[^]+<status>([^]+)<\/status>[^]+<\/system>/` (line 78 of
`src/index.js`).  JavaScript backtracking semantics: the match starts at the
leftmost viable `<system>`; the first greedy gap extends to the last viable
`<status>`; the greedy capture then extends to the last `</status>` still
followed (at distance at least one) by a `</system>`.  Tag lengths: `<system>`
and `<status>` are 8 characters, `</status>` and `</system>` are 9; each
`[^]+` gap needs at least one character. -/
def sysStatusCapture (cs : List Char) : Option (List Char) :=
  let stStarts := occs "<status>".data cs
  let stEnds := occs "</status>".data cs
  let sysEnds := occs "</system>".data cs
  let endOk : Nat → Bool := fun r => sysEnds.any (fun u => r + 10 ≤ u)
  let bestEnd : Nat → Option Nat := fun p =>
    (stEnds.filter (fun r => p + 9 ≤ r && endOk r)).getLast?
  let bestStart : Nat → Option Nat := fun i =>
    (stStarts.filter (fun p => i + 9 ≤ p && (bestEnd p).isSome)).getLast?
  match (occs "<system>".data cs).find? (fun i => (bestStart i).isSome) with
  | none => none
  | some i =>
    match bestStart i with
    | none => none
    | some p =>
      match bestEnd p with
      | none => none
      | some r => some ((cs.drop (p + 8)).take (r - (p + 8)))

/-- Candidate capture length `k` for the greedy regex `/(.+);/` anchored at
the start of `cs`: the `k` consumed characters contain no newline (`.` does
not match `\n`), and the character at position `k` is the literal `;`. -/
def capPred (cs : List Char) (k : Nat) : Prop :=
  1 ≤ k ∧ cs[k]? = some ';' ∧ '\n' ∉ cs.take k

instance capPredDec (cs : List Char) (k : Nat) : Decidable (capPred cs k) :=
  inferInstanceAs (Decidable (1 ≤ k ∧ cs[k]? = some ';' ∧ '\n' ∉ cs.take k))

/-- Greedy capture length at the start of `cs` for `/(.+);/`: the largest
candidate, if any. -/
def capLenAt (cs : List Char) : Option Nat :=
  if Nat.findGreatest (capPred cs) cs.length = 0 then none
  else some (Nat.findGreatest (capPred cs) cs.length)

/-- Capture of the greedy regex `/(.+);/` (line 188 of `src/index.js`):
leftmost match, then the longest capture ending just before a `;`. -/
def matchDotPlusSemi : List Char → Option (List Char)
  | [] => none
  | c :: t =>
    match capLenAt (c :: t) with
    | some k => some ((c :: t).take k)
    | none => matchDotPlusSemi t

/-- Capture of `/time left:(.+)/` (line 180 of `src/index.js`): at the
leftmost occurrence of `time left:` followed by at least one non-newline
character, the capture is the maximal run of non-newline characters. -/
def matchTimeLeft : List Char → Option (List Char)
  | [] => none
  | c :: t =>
    if List.isPrefixOf "time left:".data (c :: t) then
      match ((c :: t).drop 10).takeWhile (fun x => x != '\n') with
      | [] => matchTimeLeft t
      | d :: u => some (d :: u)
    else matchTimeLeft t

/-- Constructor configuration (lines 11-25 of `src/index.js`); `timeout` is
`none` when the option was not supplied. -/
structure Config where
  host : String
  username : String
  password : String
  timeout : Option Nat
  debug : Bool
deriving DecidableEq

/-- Line 24: `self.timeout = config.timeout || 2500` (`0` is falsy). -/
def constructorTimeout (t : Option Nat) : Nat :=
  match t with
  | some v => if v = 0 then 2500 else v
  | none => 2500

/-- Line 20: `self.baseURL = 'http://' + config.host`. -/
def baseURL (cfg : Config) : String :=
  "http://" ++ cfg.host

/-- Property names that every JavaScript object literal inherits from
`Object.prototype`: bracket lookup of any of these keys on `{...}` yields the
inherited member (a function, or `Object.prototype` itself for `__proto__`) —
a truthy value that is not `undefined` and not a string. -/
def objectPrototypeKeys : List String :=
  ["constructor", "hasOwnProperty", "isPrototypeOf", "propertyIsEnumerable",
   "toLocaleString", "toString", "valueOf",
   "__defineGetter__", "__defineSetter__", "__lookupGetter__", "__lookupSetter__",
   "__proto__"]

/-- A JavaScript value that can come out of the source's object-literal
lookups: an own-property string, or an inherited `Object.prototype` member
(looked up under `name`; truthy, not a string, not `undefined`). -/
inductive JsValue where
  | str (s : String)
  | protoFn (name : String)
deriving DecidableEq

/-- The mutable instance fields of a `PowerLink2` object: `failSafe`
(line 14), `cookie` (lines 148, 189, 230), `lastStatus` (lines 68, 90) and
`getStatusIndex` (lines 47, 74).  The three `Option` fields are `undefined`
(or `null`) until first assigned.  `lastStatus` holds a `JsValue` because the
prototype-chain lookup of lines 81-89 can cache an inherited function. -/
structure ClientState where
  failSafe : Bool
  cookie : Option String
  lastStatus : Option JsValue
  getStatusIndex : Option String
deriving DecidableEq

/-- State of a freshly constructed client: only `failSafe` is initialised
(to `false`, line 14); the other fields are `undefined`. -/
def initialState : ClientState :=
  { failSafe := false, cookie := none, lastStatus := none, getStatusIndex := none }

/-- An outgoing HTTP request as the source builds it for the `request`
module: URL, method, form fields, headers, and optional timeout. -/
structure HttpRequest where
  url : String
  method : String
  form : List (String × String)
  headers : List (String × String)
  timeout : Option Nat
deriving DecidableEq

/-- Read a header value (JavaScript object property read). -/
def getHeader (hs : List (String × String)) (k : String) : Option String :=
  (hs.find? (fun p => p.1 == k)).map (fun p => p.2)

/-- Set a header (JavaScript object property write: replace the existing key
in place, else append; object keys are unique). -/
def setHeaderKey : List (String × String) → String → String → List (String × String)
  | [], k, v => [(k, v)]
  | p :: t, k, v => if p.1 == k then (k, v) :: t else p :: setHeaderKey t k v

/-- Lines 216-217: `config.headers = config.headers || {};
config.headers['Cookie'] = cookie`. -/
def injectCookie (req : HttpRequest) (cookie : String) : HttpRequest :=
  { req with headers := setHeaderKey req.headers "Cookie" cookie }

/-- JavaScript `x || d` for a possibly-undefined string `x` (the empty string
is falsy). -/
def jsOrStr (x : Option String) (d : String) : String :=
  match x with
  | some v => if v = "" then d else v
  | none => d

/-- The values of `PowerLink2.STATUSES` (lines 27-33 of `src/index.js`). -/
def statusEnumValues : List String :=
  ["disarmed", "home", "away", "exit delay", "unknown"]

/-- Lines 81-89: `statusStringToStatus[statusString] || UNKNOWN`.  Bracket
lookup first finds the object's own properties, then the prototype chain: a
key naming an inherited `Object.prototype` member yields that member — a
truthy function, so `|| UNKNOWN` does not fire and the function itself
becomes the resolved status.  Only a lookup yielding `undefined` (or an own
falsy value; all own values here are non-empty strings) falls back to
`'unknown'`. -/
def statusLookup (raw : String) : JsValue :=
  if raw = "Ready" then .str "disarmed"
  else if raw = "NotReady" then .str "disarmed"
  else if raw = "Exit Delay" then .str "exit delay"
  else if raw = "HOME" then .str "home"
  else if raw = "AWAY" then .str "away"
  else if raw ∈ objectPrototypeKeys then .protoFn raw
  else .str "unknown"

/-- Result of `stringMap[status]` at line 110: an own-property command
string, an inherited `Object.prototype` member (truthy, not `undefined`),
or `undefined`. -/
inductive JsLookup where
  | own (v : String)
  | inherited (key : String)
  | notFound
deriving DecidableEq

/-- Lines 105-110: the `stringMap` object lookup of `setStatus`, including
the prototype chain: a target naming an inherited `Object.prototype` member
yields that member, which is not `undefined`. -/
def setStatusStringMap (status : String) : JsLookup :=
  if status = "disarmed" then .own "Disarm"
  else if status = "home" then .own "ArmHome"
  else if status = "away" then .own "ArmAway"
  else if status ∈ objectPrototypeKeys then .inherited status
  else .notFound

/-- Literal matched by `/<customStatus>\[NOCNG\]<\/customStatus>/`
(line 65 of `src/index.js`). -/
def noChangeMarker : String :=
  "<customStatus>[NOCNG]</customStatus>"

/-- Error message of line 144 of `src/index.js`. -/
def authBlockedMsg : String :=
  "A previous authentication attempt failed; not continuing."

/-- Default rejection reason of line 178 of `src/index.js`. -/
def invalidCredsMsg : String :=
  "Invalid PowerLink2 username or password provided"

/-- Result of the synchronous part of `getAuthenticationCookie`
(lines 143-160): fail immediately, return the cached cookie, or issue the
login POST. -/
inductive AuthAction where
  | err (msg : String)
  | ok (cookie : String)
  | sendLogin (req : HttpRequest)
deriving DecidableEq

/-- The login POST request (lines 153-161 of `src/index.js`). -/
def loginRequest (cfg : Config) : HttpRequest :=
  { url := baseURL cfg ++ "/web/ajax/login.login.ajax.php"
    method := "POST"
    form := [("user", cfg.username), ("pass", cfg.password)]
    headers := []
    timeout := some (constructorTimeout cfg.timeout) }

/-- Lines 143-160 of `src/index.js`: the decision made before any network
traffic.  With `failSafe` set, the callback receives an error and no request
is issued; with a cached cookie, the cookie is returned; otherwise the login
request is issued.  No instance field is written here. -/
def getAuthenticationCookieSync (cfg : Config) (s : ClientState) :
    ClientState × AuthAction :=
  if s.failSafe then (s, .err authBlockedMsg)
  else
    match s.cookie with
    | some c => (s, .ok c)
    | none => (s, .sendLogin (loginRequest cfg))

/-- Completion of the login-response callback: error handed to the caller,
cookie handed to the caller, or an uncaught exception (`.match(...)[1]` or
`headers['set-cookie'][0]` on `undefined`). -/
inductive LoginOutcome where
  | err (msg : String)
  | ok (cookie : String)
  | thrown
deriving DecidableEq

/-- Lines 162-193 of `src/index.js`: the login-response callback.  `error` is
the transport error (if any), `body` the response body, `setCookieHeaders`
the `set-cookie` header array (absent when `undefined`).  A transport error
is propagated unchanged.  A body matching `/NOT::/` sets `failSafe` and
fails with a reason enriched by `/time left:(.+)/`.  Otherwise the cookie is
the `/(.+);/` capture of the first `set-cookie` value, cached and returned;
a missing header array, empty array, or failed match throws. -/
def handleLoginResponse (s : ClientState) (error : Option String) (body : String)
    (setCookieHeaders : Option (List String)) : ClientState × LoginOutcome :=
  match error with
  | some e => (s, .err e)
  | none =>
    if containsStr "NOT::" body then
      let s2 := { s with failSafe := true }
      let reason :=
        match matchTimeLeft body.data with
        | some cap =>
            "Locked out for " ++ String.mk cap ++
              ". Ensure username and password are correct, and restart Homebridge once the lockout time has elapsed."
        | none => invalidCredsMsg
      (s2, .err reason)
    else
      match setCookieHeaders with
      | none => (s, .thrown)
      | some [] => (s, .thrown)
      | some (h :: _) =>
        match matchDotPlusSemi h.data with
        | none => (s, .thrown)
        | some cap => ({ s with cookie := some (String.mk cap) }, .ok (String.mk cap))

/-- Outcome of the authentication phase of `authenticatedRequest`
(lines 206-214): the caller's callback receives an error, or the flow
proceeds with a cookie, or the login request must first be sent. -/
inductive AuthPhase where
  | failed (msg : String)
  | proceed (cookie : String)
  | login (req : HttpRequest)
deriving DecidableEq

/-- Lines 206-214 of `src/index.js`: `authenticatedRequest` first runs
`getAuthenticationCookie`; an error outcome reaches the caller wrapped as
`Failed to get authentication cookie: ${error}` (a JavaScript `Error` prints
with an `Error: ` prefix). -/
def authenticatedRequestAuthPhase (cfg : Config) (s : ClientState) :
    ClientState × AuthPhase :=
  match getAuthenticationCookieSync cfg s with
  | (s2, .err e) => (s2, .failed ("Failed to get authentication cookie: Error: " ++ e))
  | (s2, .ok c) => (s2, .proceed c)
  | (s2, .sendLogin r) => (s2, .login r)

/-- Line 219 of `src/index.js`:
`config.timeout = config.timeout || self.config.timeout`.  The constructor
stores the configured timeout in `self.timeout` and never assigns
`self.config`, so `self.config` is `undefined` and reading `.timeout` from it
throws a `TypeError`; the branch for a truthy caller-supplied timeout
(`0` is falsy) is the only one that succeeds. -/
def resolveRequestTimeout (callerTimeout : Option Nat) : Except String Nat :=
  match callerTimeout with
  | some v =>
    if v = 0 then .error "TypeError: Cannot read property of undefined"
    else .ok v
  | none => .error "TypeError: Cannot read property of undefined"

/-- Completion of the response callback of `authenticatedRequest`
(lines 221-241): either a delayed retry of the whole operation is scheduled
(the caller's callback is not invoked), or the caller's callback receives
`(error, body)`. -/
inductive RetryOrDone where
  | retry (delayMs : Nat)
  | done (error : Option String) (body : String)
deriving DecidableEq

/-- Lines 221-241 of `src/index.js`: on a transport success whose body is
empty (`body == ''`) or matches `/\[RELOGIN\]/`, the cached cookie is set to
`null` and the same request is re-run after `3*1000` milliseconds; otherwise
the callback receives the error (if any) and body verbatim. -/
def authenticatedRequestHandleResponse (s : ClientState) (error : Option String)
    (body : String) : ClientState × RetryOrDone :=
  match error with
  | some e => (s, .done (some e) body)
  | none =>
    if body == "" || containsStr "[RELOGIN]" body then
      ({ s with cookie := none }, .retry 3000)
    else
      (s, .done none body)

/-- The status-poll POST built by `getStatus` (lines 43-51 of
`src/index.js`); `curindex` is `self.getStatusIndex || '0'`. -/
def getStatusRequest (cfg : Config) (s : ClientState) : HttpRequest :=
  { url := baseURL cfg ++ "/web/ajax/alarm.chkstatus.ajax.php"
    method := "POST"
    form := [("curindex", jsOrStr s.getStatusIndex "0"),
             ("sesusername", cfg.username),
             ("sesusermanager", "1")]
    headers := []
    timeout := none }

/-- Completion of the `getStatus` response callback: error handed to the
caller, a (possibly `undefined`) status handed to the caller, or an uncaught
exception from `.match(...)[1]` on a body without the `<system>` fragment. -/
inductive StatusOutcome where
  | err (msg : String)
  | ok (status : Option JsValue)
  | thrown
deriving DecidableEq

/-- Lines 52-93 of `src/index.js`: the `getStatus` response callback.  An
error is wrapped and propagated.  A body matching the no-change marker
returns `self.lastStatus` at once (possibly `undefined`).  Otherwise the
`<index>` capture, when present, is stored in `getStatusIndex`; then the
`<system>` regex capture is mapped through `statusLookup`, cached in
`lastStatus` and returned; a body without the `<system>` fragment throws. -/
def handleStatusBody (s : ClientState) (error : Option String) (body : String) :
    ClientState × StatusOutcome :=
  match error with
  | some e => (s, .err ("Error getting raw status: " ++ e))
  | none =>
    if containsStr noChangeMarker body then
      (s, .ok s.lastStatus)
    else
      let s1 :=
        match extractIndex body.data with
        | some cap => { s with getStatusIndex := some (String.mk cap) }
        | none => s
      match sysStatusCapture body.data with
      | none => (s1, .thrown)
      | some cap =>
        let status := statusLookup (String.mk cap)
        ({ s1 with lastStatus := some status }, .ok (some status))

/-- Result of the synchronous part of `setStatus` (lines 105-123): an error
callback without network traffic, the command POST, or — for a target naming
an inherited `Object.prototype` member — the command POST issued with that
inherited function (a non-string) as the `set` field. -/
inductive SetStatusAction where
  | err (msg : String)
  | send (req : HttpRequest)
  | sendInherited (key : String)
deriving DecidableEq

/-- Lines 105-123 of `src/index.js`: `setStatus` looks the target up in
`stringMap`; only a lookup yielding `undefined` produces
`Cannot set status to: ${status}` and returns before any network call; an
own mapped target issues the command POST with form field `set`; a target
naming an inherited `Object.prototype` member passes the
`statusString == undefined` test (the inherited member is not `undefined`)
and issues the command POST with that member as the `set` value. -/
def setStatusBuild (cfg : Config) (status : String) : SetStatusAction :=
  match setStatusStringMap status with
  | .notFound => .err ("Cannot set status to: " ++ status)
  | .own str =>
    .send
      { url := baseURL cfg ++ "/web/ajax/security.main.status.ajax.php"
        method := "POST"
        form := [("set", str)]
        headers := []
        timeout := none }
  | .inherited k => .sendInherited k

/-- Modelled from the spec (section 4.1 of `spec.md`): the cookie is the
first `set-cookie` value "up to its first semicolon".  Stated only to be
compared with the source's greedy `/(.+);/` extraction. -/
def specFirstSemicolonTruncation (h : String) : String :=
  String.mk (h.data.takeWhile (fun c => c != ';'))

/-- Sample configuration used by concrete instantiations below. -/
def sampleConfig : Config :=
  { host := "192.168.1.10", username := "user", password := "pass",
    timeout := none, debug := false }

/-- Writing a header key and reading it back yields the written value. -/
theorem getHeader_setHeaderKey (hs : List (String × String)) (k v : String) :
    getHeader (setHeaderKey hs k v) k = some v := by
  induction hs with
  | nil =>
    simp [setHeaderKey, getHeader, List.find?]
  | cons p t ih =>
    by_cases h : (p.1 == k) = true
    · simp [setHeaderKey, h, getHeader, List.find?]
    · simp only [setHeaderKey, h] at ih ⊢
      rw [if_neg (by simp [h])]
      simpa [getHeader, List.find?, h] using ih

/-- A non-empty pattern never occurs in the empty list. -/
theorem findSubIdx_nil_of_ne (pat : List Char) (hp : pat ≠ []) :
    findSubIdx pat [] = none := by
  cases pat with
  | nil => exact absurd rfl hp
  | cons c t => simp [findSubIdx, List.isPrefixOf]

/-- The capture of a lazy `+?` group is non-empty. -/
theorem regexLazyBetween_ne_nil (openT closeT : List Char) (s cap : List Char)
    (hc : closeT ≠ []) (h : regexLazyBetween openT closeT s = some cap) :
    cap ≠ [] := by
  induction s with
  | nil => simp [regexLazyBetween] at h
  | cons c t ih =>
    rw [regexLazyBetween] at h
    by_cases hp : List.isPrefixOf openT (c :: t) = true
    · rw [if_pos hp] at h
      rcases hfs : findSubIdx closeT (((c :: t).drop openT.length).drop 1) with _ | j
      · rw [hfs] at h
        exact ih h
      · rw [hfs] at h
        injection h with h2
        intro hcontra
        rw [← h2] at hcontra
        rcases List.take_eq_nil_iff.mp hcontra with h3 | h3
        · exact Nat.succ_ne_zero j h3
        · rw [h3, List.drop_nil] at hfs
          rw [findSubIdx_nil_of_ne closeT hc] at hfs
          exact Option.noConfusion hfs
    · rw [if_neg hp] at h
      exact ih h

/-- The greedy `/(.+);/` capture length at the start of `cs` is the position
of the last semicolon, provided `cs` has no newline and that position is at
least `1`. -/
theorem capLenAt_eq_last (cs : List Char) (j : Nat) (hnl : '\n' ∉ cs)
    (hj : cs[j]? = some ';') (hj1 : 1 ≤ j)
    (hlast : (';' : Char) ∉ cs.drop (j + 1)) :
    capLenAt cs = some j := by
  have hjlt : j < cs.length := (List.getElem?_eq_some.mp hj).1
  have hfg : Nat.findGreatest (capPred cs) cs.length = j := by
    rw [Nat.findGreatest_eq_iff]
    refine ⟨le_of_lt hjlt, fun _ => ?_, ?_⟩
    · unfold capPred
      exact ⟨hj1, hj, fun hm => hnl (List.mem_of_mem_take hm)⟩
    · intro n hn hnle hP
      unfold capPred at hP
      rcases hP with ⟨-, hsemi, -⟩
      rcases lt_or_eq_of_le hnle with hlt | heq
      · apply hlast
        have hd : (cs.drop (j + 1))[n - (j + 1)]? = some ';' := by
          rw [List.getElem?_drop]
          have harith : (j + 1) + (n - (j + 1)) = n := by omega
          rw [harith]
          exact hsemi
        exact List.getElem?_mem hd
      · rw [heq] at hsemi
        rw [List.getElem?_eq_none (le_refl _)] at hsemi
        exact Option.noConfusion hsemi
  unfold capLenAt
  rw [hfg]
  rw [if_neg (by omega)]

/-- The greedy `/(.+);/` match on a newline-free string captures everything
before the last semicolon. -/
theorem matchDotPlusSemi_last (cs : List Char) (j : Nat) (hnl : '\n' ∉ cs)
    (hj : cs[j]? = some ';') (hj1 : 1 ≤ j)
    (hlast : (';' : Char) ∉ cs.drop (j + 1)) :
    matchDotPlusSemi cs = some (cs.take j) := by
  have hcap := capLenAt_eq_last cs j hnl hj hj1 hlast
  cases cs with
  | nil => simp at hj
  | cons c t => simp only [matchDotPlusSemi, hcap]

/-- The login-response callback never clears `failSafe`. -/
theorem handleLoginResponse_failSafe (s : ClientState) (e : Option String)
    (body : String) (hdrs : Option (List String)) (h : s.failSafe = true) :
    ((handleLoginResponse s e body hdrs).1).failSafe = true := by
  unfold handleLoginResponse
  cases e with
  | some e => exact h
  | none =>
    dsimp only
    split
    · rfl
    · rcases hdrs with _ | hs
      · exact h
      · rcases hs with _ | ⟨hd, tl⟩
        · exact h
        · dsimp only
          rcases hm : matchDotPlusSemi hd.data with _ | cap <;> simp only [hm] <;> exact h

/-- The `getStatus` response callback never clears `failSafe`. -/
theorem handleStatusBody_failSafe (s : ClientState) (e : Option String)
    (body : String) (h : s.failSafe = true) :
    ((handleStatusBody s e body).1).failSafe = true := by
  unfold handleStatusBody
  cases e with
  | some e => exact h
  | none =>
    dsimp only
    split
    · exact h
    · rcases hidx : extractIndex body.data with _ | cap <;>
        simp only [hidx] <;>
        rcases hsys : sysStatusCapture body.data with _ | cap2 <;>
        simp only [hsys] <;> exact h

/-- The `authenticatedRequest` response callback never clears `failSafe`. -/
theorem authenticatedRequestHandleResponse_failSafe (s : ClientState)
    (e : Option String) (body : String) (h : s.failSafe = true) :
    ((authenticatedRequestHandleResponse s e body).1).failSafe = true := by
  unfold authenticatedRequestHandleResponse
  cases e with
  | some e => exact h
  | none =>
    dsimp only
    split
    · exact h
    · exact h

/-- Claim C1: once the fail-safe flag is set, no response callback of the
client ever resets it (it is monotonic for the lifetime of the instance), and
every later `getAuthenticationCookie` call — hence the authentication phase
of every `getStatus`/`setStatus` — fails immediately with an error and
issues no network request (the result is `err`/`failed`, never
`sendLogin`). -/
theorem failSafe_monotonic_and_blocking (cfg : Config) (s : ClientState)
    (hfs : s.failSafe = true) :
    getAuthenticationCookieSync cfg s = (s, AuthAction.err authBlockedMsg)
    ∧ authenticatedRequestAuthPhase cfg s =
        (s, AuthPhase.failed ("Failed to get authentication cookie: Error: " ++ authBlockedMsg))
    ∧ (∀ e body hdrs, ((handleLoginResponse s e body hdrs).1).failSafe = true)
    ∧ (∀ e body, ((authenticatedRequestHandleResponse s e body).1).failSafe = true)
    ∧ (∀ e body, ((handleStatusBody s e body).1).failSafe = true) := by
  have h1 : getAuthenticationCookieSync cfg s = (s, AuthAction.err authBlockedMsg) := by
    simp [getAuthenticationCookieSync, hfs]
  refine ⟨h1, ?_, fun e body hdrs => handleLoginResponse_failSafe s e body hdrs hfs,
    fun e body => authenticatedRequestHandleResponse_failSafe s e body hfs,
    fun e body => handleStatusBody_failSafe s e body hfs⟩
  unfold authenticatedRequestAuthPhase
  rw [h1]

/-- Concrete instantiation of `failSafe_monotonic_and_blocking` at a state
with the fail-safe flag set. -/
theorem failSafe_monotonic_and_blocking_instance :
    (ClientState.mk true none none none).failSafe = true
    ∧ getAuthenticationCookieSync sampleConfig (ClientState.mk true none none none)
        = (ClientState.mk true none none none, AuthAction.err authBlockedMsg) :=
  ⟨rfl, (failSafe_monotonic_and_blocking sampleConfig (ClientState.mk true none none none) rfl).1⟩

/-- Claim C2: a transport-successful response whose body is empty or contains
`[RELOGIN]` clears the cached cookie and schedules a retry of the same
request after the fixed 3000 ms backoff; the caller's callback is not invoked
for the stale response (the outcome is `retry`, never `done`); the retried
operation re-authenticates (its authentication phase issues the login
request), and the cookie it fetches is the one injected into the retried
request's `Cookie` header. -/
theorem stale_session_retry (cfg : Config) (s : ClientState) (body : String)
    (reqCfg : HttpRequest) (c2 : String)
    (hstale : body = "" ∨ containsStr "[RELOGIN]" body = true) :
    authenticatedRequestHandleResponse s none body
      = ({ s with cookie := none }, RetryOrDone.retry 3000)
    ∧ (∀ e b, (authenticatedRequestHandleResponse s none body).2 ≠ RetryOrDone.done e b)
    ∧ (s.failSafe = false →
        authenticatedRequestAuthPhase cfg { s with cookie := none } =
          ({ s with cookie := none }, AuthPhase.login (loginRequest cfg)))
    ∧ getHeader (injectCookie reqCfg c2).headers "Cookie" = some c2 := by
  have hcond : (body == "" || containsStr "[RELOGIN]" body) = true := by
    rcases hstale with h | h
    · subst h; simp
    · simp [h]
  have h1 : authenticatedRequestHandleResponse s none body
      = ({ s with cookie := none }, RetryOrDone.retry 3000) := by
    unfold authenticatedRequestHandleResponse
    simp [hcond]
  refine ⟨h1, ?_, ?_, getHeader_setHeaderKey reqCfg.headers "Cookie" c2⟩
  · rw [h1]
    intro e b
    simp
  · intro hFS
    unfold authenticatedRequestAuthPhase getAuthenticationCookieSync
    simp [hFS]

/-- Concrete instantiation of `stale_session_retry` at an empty body. -/
theorem stale_session_retry_instance :
    (("" : String) = "" ∨ containsStr "[RELOGIN]" "" = true)
    ∧ authenticatedRequestHandleResponse initialState none ""
        = ({ initialState with cookie := none }, RetryOrDone.retry 3000) :=
  ⟨Or.inl rfl,
    (stale_session_retry sampleConfig initialState ""
      (getStatusRequest sampleConfig initialState) "PowerLink=fresh" (Or.inl rfl)).1⟩

/-- Claim C3 (counterexample): a body whose `<status>` capture is
`toString` — a raw string outside the fixed table — does not resolve to
`unknown`: the bracket lookup finds the inherited, truthy
`Object.prototype.toString`, `|| UNKNOWN` does not fire, and `getStatus`
resolves (and caches) that inherited function. -/
theorem status_inherited_lookup_counterexample :
    sysStatusCapture ("<system>x<status>toString</status>x</system>" : String).data
      = some ("toString" : String).data
    ∧ containsStr noChangeMarker "<system>x<status>toString</status>x</system>" = false
    ∧ ("toString" : String) ∉ ["Ready", "NotReady", "Exit Delay", "HOME", "AWAY"]
    ∧ (handleStatusBody initialState none "<system>x<status>toString</status>x</system>").2
        = StatusOutcome.ok (some (JsValue.protoFn "toString"))
    ∧ StatusOutcome.ok (some (JsValue.protoFn "toString"))
        ≠ StatusOutcome.ok (some (JsValue.str "unknown")) :=
  ⟨by decide, by decide, by decide, by decide, by decide⟩

/-- Claim C3 (amended): when the body has no no-change marker and the
`<system>` regex captures the raw string, `getStatus` resolves it through
the fixed table (`Ready`/`NotReady` to `disarmed`, `Exit Delay` to
`exit delay`, `HOME` to `home`, `AWAY` to `away`) and caches the resolved
value as the last-known status; a raw string outside the table resolves to
`unknown` only when it is not an inherited `Object.prototype` property name;
a raw string naming an inherited member resolves to that member (a function,
not a status string) instead. -/
theorem status_table_mapping (s : ClientState) (body : String) (cap : List Char)
    (hnc : containsStr noChangeMarker body = false)
    (hcap : sysStatusCapture body.data = some cap) :
    (handleStatusBody s none body).2 = StatusOutcome.ok (some (statusLookup (String.mk cap)))
    ∧ ((handleStatusBody s none body).1).lastStatus = some (statusLookup (String.mk cap))
    ∧ statusLookup "Ready" = JsValue.str "disarmed"
    ∧ statusLookup "NotReady" = JsValue.str "disarmed"
    ∧ statusLookup "Exit Delay" = JsValue.str "exit delay"
    ∧ statusLookup "HOME" = JsValue.str "home"
    ∧ statusLookup "AWAY" = JsValue.str "away"
    ∧ (∀ raw : String, raw ≠ "Ready" → raw ≠ "NotReady" → raw ≠ "Exit Delay" →
        raw ≠ "HOME" → raw ≠ "AWAY" → raw ∉ objectPrototypeKeys →
        statusLookup raw = JsValue.str "unknown")
    ∧ (∀ raw ∈ objectPrototypeKeys, statusLookup raw = JsValue.protoFn raw) := by
  have hmain : handleStatusBody s none body
      = (match extractIndex body.data with
         | some icap =>
             { s with getStatusIndex := some (String.mk icap),
                      lastStatus := some (statusLookup (String.mk cap)) }
         | none => { s with lastStatus := some (statusLookup (String.mk cap)) },
         StatusOutcome.ok (some (statusLookup (String.mk cap)))) := by
    unfold handleStatusBody
    rw [if_neg (by rw [hnc]; exact Bool.false_ne_true)]
    rcases hidx : extractIndex body.data with _ | icap <;> simp only [hidx, hcap]
  refine ⟨?_, ?_, by decide, by decide, by decide, by decide, by decide, ?_, by decide⟩
  · rw [hmain]
  · rw [hmain]
    rcases hidx : extractIndex body.data with _ | icap <;> simp only [hidx]
  · intro raw r1 r2 r3 r4 r5 r6
    unfold statusLookup
    rw [if_neg r1, if_neg r2, if_neg r3, if_neg r4, if_neg r5, if_neg r6]

/-- Concrete instantiation of `status_table_mapping` at a `Ready` body. -/
theorem status_table_mapping_instance :
    containsStr noChangeMarker "<system>.<status>Ready</status>.</system>" = false
    ∧ sysStatusCapture ("<system>.<status>Ready</status>.</system>" : String).data
        = some ("Ready" : String).data
    ∧ (handleStatusBody initialState none "<system>.<status>Ready</status>.</system>").2
        = StatusOutcome.ok (some (statusLookup (String.mk ("Ready" : String).data))) :=
  ⟨by decide, by decide,
    (status_table_mapping initialState "<system>.<status>Ready</status>.</system>"
      ("Ready" : String).data (by decide) (by decide)).1⟩

/-- Claim C4 (counterexample): the target `toString` is outside the Status
enumeration and outside the command map, yet `setStatus` does not error:
`stringMap['toString']` is the inherited, truthy `Object.prototype.toString`
and so passes the `statusString == undefined` test — the code proceeds to
the network path with the inherited function as command value. -/
theorem setStatus_inherited_lookup_counterexample :
    ("toString" : String) ∉ statusEnumValues
    ∧ setStatusBuild sampleConfig "toString" = SetStatusAction.sendInherited "toString"
    ∧ (∀ msg, setStatusBuild sampleConfig "toString" ≠ SetStatusAction.err msg) := by
  refine ⟨by decide, by decide, fun msg => ?_⟩
  intro hcontra
  rw [show setStatusBuild sampleConfig "toString" = SetStatusAction.sendInherited "toString"
    from by decide] at hcontra
  exact SetStatusAction.noConfusion hcontra

/-- Claim C4 (amended): a target outside the command map errors without any
network call only when it also names no inherited `Object.prototype` member
(which covers `exit delay`, `unknown`, and ordinary strings outside the
enumeration); the three mapped targets produce requests whose form field
`set` is `Disarm`, `ArmHome`, `ArmAway` respectively; a target naming an
inherited `Object.prototype` member slips past the `undefined` check and
proceeds to the network path with the inherited member as command value. -/
theorem setStatus_unsupported_and_commands (cfg : Config) (t : String)
    (h1 : t ≠ "disarmed") (h2 : t ≠ "home") (h3 : t ≠ "away")
    (h4 : t ∉ objectPrototypeKeys) :
    setStatusBuild cfg t = SetStatusAction.err ("Cannot set status to: " ++ t)
    ∧ (∀ req, setStatusBuild cfg t ≠ SetStatusAction.send req)
    ∧ (∀ k, setStatusBuild cfg t ≠ SetStatusAction.sendInherited k)
    ∧ setStatusBuild cfg "disarmed" = SetStatusAction.send
        { url := baseURL cfg ++ "/web/ajax/security.main.status.ajax.php", method := "POST",
          form := [("set", "Disarm")], headers := [], timeout := none }
    ∧ setStatusBuild cfg "home" = SetStatusAction.send
        { url := baseURL cfg ++ "/web/ajax/security.main.status.ajax.php", method := "POST",
          form := [("set", "ArmHome")], headers := [], timeout := none }
    ∧ setStatusBuild cfg "away" = SetStatusAction.send
        { url := baseURL cfg ++ "/web/ajax/security.main.status.ajax.php", method := "POST",
          form := [("set", "ArmAway")], headers := [], timeout := none }
    ∧ (∀ u ∈ objectPrototypeKeys, setStatusBuild cfg u = SetStatusAction.sendInherited u) := by
  have herr : setStatusBuild cfg t = SetStatusAction.err ("Cannot set status to: " ++ t) := by
    unfold setStatusBuild setStatusStringMap
    rw [if_neg h1, if_neg h2, if_neg h3, if_neg h4]
  refine ⟨herr, fun req => by rw [herr]; simp, fun k => by rw [herr]; simp, rfl, rfl, rfl, ?_⟩
  intro u hu
  simp only [objectPrototypeKeys, List.mem_cons, List.not_mem_nil, or_false] at hu
  rcases hu with h | h | h | h | h | h | h | h | h | h | h | h <;> subst h <;> rfl

/-- Concrete instantiation of `setStatus_unsupported_and_commands` at the
read-only target `exit delay`. -/
theorem setStatus_unsupported_and_commands_instance :
    (("exit delay" : String) ≠ "disarmed" ∧ ("exit delay" : String) ≠ "home"
      ∧ ("exit delay" : String) ≠ "away" ∧ ("exit delay" : String) ∉ objectPrototypeKeys)
    ∧ setStatusBuild sampleConfig "exit delay"
        = SetStatusAction.err ("Cannot set status to: " ++ "exit delay") :=
  ⟨⟨by decide, by decide, by decide, by decide⟩,
    (setStatus_unsupported_and_commands sampleConfig "exit delay"
      (by decide) (by decide) (by decide) (by decide)).1⟩

/-- Claim C6 (failing evaluation): with no caller-supplied timeout, line 219
of `src/index.js` reads `self.config.timeout` from the `undefined`
`self.config` and throws a `TypeError` — the request never gets the
constructor's configured timeout (which would default to 2500 ms); the cookie
injection of lines 216-217 itself does set the `Cookie` header. -/
theorem request_timeout_type_error :
    resolveRequestTimeout none = Except.error "TypeError: Cannot read property of undefined"
    ∧ (∀ t : Nat, resolveRequestTimeout none ≠ Except.ok t)
    ∧ constructorTimeout none = 2500
    ∧ (∀ req c2, getHeader (injectCookie req c2).headers "Cookie" = some c2) := by
  refine ⟨rfl, fun t => by simp [resolveRequestTimeout], rfl,
    fun req c2 => getHeader_setHeaderKey req.headers "Cookie" c2⟩

/-- Claim C7: a body carrying the no-change marker makes `getStatus` return
the cached last-known status and leaves the whole client state (last-known
status, cursor, cookie, fail-safe flag) untouched; no parsing runs. -/
theorem nochange_returns_last_status (s : ClientState) (body : String) (x : JsValue)
    (hnc : containsStr noChangeMarker body = true) (hlast : s.lastStatus = some x) :
    handleStatusBody s none body = (s, StatusOutcome.ok (some x)) := by
  unfold handleStatusBody
  rw [if_pos hnc, hlast]

/-- Concrete instantiation of `nochange_returns_last_status` after a prior
`disarmed` read. -/
theorem nochange_returns_last_status_instance :
    containsStr noChangeMarker noChangeMarker = true
    ∧ handleStatusBody { initialState with lastStatus := some (JsValue.str "disarmed") }
        none noChangeMarker
        = ({ initialState with lastStatus := some (JsValue.str "disarmed") },
           StatusOutcome.ok (some (JsValue.str "disarmed"))) :=
  ⟨by decide,
    nochange_returns_last_status
      { initialState with lastStatus := some (JsValue.str "disarmed") }
      noChangeMarker (JsValue.str "disarmed") (by decide) rfl⟩

/-- Claim C8 (failing evaluation): on a fresh client whose very first status
response carries the no-change marker, `getStatus` completes with neither an
error nor a value of the status enumeration — the callback receives the
`undefined` `self.lastStatus`. -/
theorem first_nochange_yields_undefined :
    handleStatusBody initialState none noChangeMarker = (initialState, StatusOutcome.ok none)
    ∧ (∀ v, v ∈ statusEnumValues →
        StatusOutcome.ok (some (JsValue.str v)) ≠ (handleStatusBody initialState none noChangeMarker).2)
    ∧ (∀ msg, (handleStatusBody initialState none noChangeMarker).2 ≠ StatusOutcome.err msg) := by
  have h1 : handleStatusBody initialState none noChangeMarker
      = (initialState, StatusOutcome.ok none) := by decide
  refine ⟨h1, ?_, ?_⟩
  · intro v hv
    rw [h1]
    simp
  · intro msg
    rw [h1]
    simp

/-- Claim C9: a transport-level login failure is propagated unchanged with no
write to any instance field (cookie stays absent, fail-safe stays clear), so
a later call with a clear flag and no cookie attempts the login again. -/
theorem login_transport_error_retryable (cfg : Config) (s : ClientState) (e : String)
    (body : String) (hdrs : Option (List String)) :
    handleLoginResponse s (some e) body hdrs = (s, LoginOutcome.err e)
    ∧ (s.failSafe = false → s.cookie = none →
        getAuthenticationCookieSync cfg s = (s, AuthAction.sendLogin (loginRequest cfg))) := by
  refine ⟨rfl, fun h1 h2 => ?_⟩
  simp [getAuthenticationCookieSync, h1, h2]

/-- Concrete instantiation of `login_transport_error_retryable` at a fresh
client and a timeout error. -/
theorem login_transport_error_retryable_instance :
    initialState.failSafe = false ∧ initialState.cookie = none
    ∧ handleLoginResponse initialState (some "ETIMEDOUT") "" none
        = (initialState, LoginOutcome.err "ETIMEDOUT")
    ∧ getAuthenticationCookieSync sampleConfig initialState
        = (initialState, AuthAction.sendLogin (loginRequest sampleConfig)) := by
  have h := login_transport_error_retryable sampleConfig initialState "ETIMEDOUT" "" none
  exact ⟨rfl, rfl, h.1, h.2 rfl rfl⟩

/-- Claim C5 (counterexample): on a successful login whose first `set-cookie`
header holds more than one semicolon, the greedy `/(.+);/` capture of
line 188 keeps everything up to the last semicolon — `SID=abc; path=/` —
whereas truncation at the first semicolon would give `SID=abc`. -/
theorem cookie_first_semicolon_counterexample :
    (handleLoginResponse initialState none "ok" (some ["SID=abc; path=/; HttpOnly"])).2
      = LoginOutcome.ok "SID=abc; path=/"
    ∧ specFirstSemicolonTruncation "SID=abc; path=/; HttpOnly" = "SID=abc"
    ∧ ("SID=abc; path=/" : String) ≠ "SID=abc" :=
  ⟨by decide, by decide, by decide⟩

/-- Claim C5 (amended): on a successful login response (no rejection marker),
the cookie cached and returned is the first `set-cookie` header value
truncated at its LAST semicolon (the `/(.+);/` capture), stated here for a
newline-free header whose last semicolon sits at position `j ≥ 1`. -/
theorem cookie_last_semicolon (s : ClientState) (body h : String) (hs : List String)
    (j : Nat) (hnot : containsStr "NOT::" body = false)
    (hnl : '\n' ∉ h.data) (hj : h.data[j]? = some ';') (hj1 : 1 ≤ j)
    (hlast : (';' : Char) ∉ h.data.drop (j + 1)) :
    handleLoginResponse s none body (some (h :: hs))
      = ({ s with cookie := some (String.mk (h.data.take j)) },
         LoginOutcome.ok (String.mk (h.data.take j))) := by
  have hm := matchDotPlusSemi_last h.data j hnl hj hj1 hlast
  unfold handleLoginResponse
  rw [if_neg (by rw [hnot]; exact Bool.false_ne_true)]
  simp only [hm]

/-- Concrete instantiation of `cookie_last_semicolon` at a three-part
`set-cookie` header. -/
theorem cookie_last_semicolon_instance :
    (1 ≤ 15 ∧ ("SID=abc; path=/; HttpOnly" : String).data[15]? = some ';')
    ∧ handleLoginResponse initialState none "ok" (some ["SID=abc; path=/; HttpOnly"])
        = ({ initialState with
              cookie := some (String.mk (("SID=abc; path=/; HttpOnly" : String).data.take 15)) },
           LoginOutcome.ok (String.mk (("SID=abc; path=/; HttpOnly" : String).data.take 15))) :=
  ⟨⟨by decide, by decide⟩,
    cookie_last_semicolon initialState "ok" "SID=abc; path=/; HttpOnly" [] 15
      (by decide) (by decide) (by decide) (by decide) (by decide)⟩

/-- Claim C10 (counterexample): a response body that carries both the
no-change marker and an `<index>` fragment takes the early no-change return,
so its `<index>` value `7` never becomes the cursor — the next request still
sends the sentinel `0`. -/
theorem nochange_index_not_stored_counterexample :
    extractIndex ("<customStatus>[NOCNG]</customStatus><index>7</index>" : String).data
      = some ['7']
    ∧ ((handleStatusBody initialState none
        "<customStatus>[NOCNG]</customStatus><index>7</index>").1).getStatusIndex = none
    ∧ (getStatusRequest sampleConfig
        (handleStatusBody initialState none
          "<customStatus>[NOCNG]</customStatus><index>7</index>").1).form
        = [("curindex", "0"), ("sesusername", "user"), ("sesusermanager", "1")]
    ∧ ("0" : String) ≠ "7" :=
  ⟨by decide, by decide, by decide, by decide⟩

/-- Claim C10 (amended): every `getStatus` request sends the stored cursor as
`curindex` — the sentinel `0` on a fresh client or whenever no cursor is
stored; the `<index>` capture of a response WITHOUT the no-change marker,
when present, becomes the stored cursor and hence the `curindex` of the next
request; a no-change response leaves the whole state, cursor included,
unchanged. -/
theorem status_cursor_tracking (cfg : Config) (s : ClientState) (body : String)
    (cap : List Char) (hnc : containsStr noChangeMarker body = false)
    (hidx : extractIndex body.data = some cap) :
    (getStatusRequest cfg initialState).form
      = [("curindex", "0"), ("sesusername", cfg.username), ("sesusermanager", "1")]
    ∧ (∀ i : String, i ≠ "" → (getStatusRequest cfg { s with getStatusIndex := some i }).form
        = [("curindex", i), ("sesusername", cfg.username), ("sesusermanager", "1")])
    ∧ ((handleStatusBody s none body).1).getStatusIndex = some (String.mk cap)
    ∧ (getStatusRequest cfg ((handleStatusBody s none body).1)).form
        = [("curindex", String.mk cap), ("sesusername", cfg.username), ("sesusermanager", "1")]
    ∧ (∀ s2 body2, containsStr noChangeMarker body2 = true →
        (handleStatusBody s2 none body2).1 = s2) := by
  have hcapne : cap ≠ [] :=
    regexLazyBetween_ne_nil "<index>".data "</index>".data body.data cap (by decide) hidx
  have hsne : String.mk cap ≠ "" := by
    intro hcontra
    exact hcapne (by simpa using congrArg String.data hcontra)
  have hstate : ((handleStatusBody s none body).1).getStatusIndex = some (String.mk cap) := by
    unfold handleStatusBody
    rw [if_neg (by rw [hnc]; exact Bool.false_ne_true)]
    simp only [hidx]
    rcases hsys : sysStatusCapture body.data with _ | cap2 <;> simp only [hsys]
  have hform : ∀ st : ClientState, st.getStatusIndex = some (String.mk cap) →
      (getStatusRequest cfg st).form
        = [("curindex", String.mk cap), ("sesusername", cfg.username), ("sesusermanager", "1")] := by
    intro st hst
    unfold getStatusRequest jsOrStr
    rw [hst]
    simp [hsne]
  refine ⟨rfl, ?_, hstate, hform _ hstate, ?_⟩
  · intro i hi
    unfold getStatusRequest jsOrStr
    simp [hi]
  · intro s2 body2 h2
    unfold handleStatusBody
    rw [if_pos h2]

/-- Concrete instantiation of `status_cursor_tracking` at a body carrying
both an `<index>` and a parsable status. -/
theorem status_cursor_tracking_instance :
    containsStr noChangeMarker "<index>9</index><system>.<status>HOME</status>.</system>" = false
    ∧ extractIndex ("<index>9</index><system>.<status>HOME</status>.</system>" : String).data
        = some ['9']
    ∧ ((handleStatusBody initialState none
        "<index>9</index><system>.<status>HOME</status>.</system>").1).getStatusIndex
        = some (String.mk ['9']) :=
  ⟨by decide, by decide,
    (status_cursor_tracking sampleConfig initialState
      "<index>9</index><system>.<status>HOME</status>.</system>" ['9']
      (by decide) (by decide)).2.2.1⟩

end PowerLink2
